import Mathlib

/-!
# Fake-news-detection content script: extraction and presentation

A shallow embedding of `src/frontend/content.js`.

* The DOM is a tree of elements; each element carries its local name, its class
  list, the `innerText` the browser computes for it, and its child elements.
* JavaScript strings are `String`; `trim`, `Set`, `filter(Boolean)` and `join`
  follow ECMAScript.
* Values coming out of `response.json()` are `JSValue`s.
* The click and selection flows are functions from a page state and the outcome
  of the network request to the page state that results, with every observable
  action appended to a log.
-/

namespace FakeNews

deriving instance DecidableEq for Except

/-! ## Strings -/

/-- ECMAScript `WhiteSpace` and `LineTerminator` code points, the ones
`String.prototype.trim` strips. -/
def isJsWhiteSpace (c : Char) : Bool :=
  c.val = 0x0009 || c.val = 0x000A || c.val = 0x000B || c.val = 0x000C || c.val = 0x000D ||
  c.val = 0x0020 || c.val = 0x00A0 || c.val = 0x1680 ||
  (0x2000 ≤ c.val && c.val ≤ 0x200A) ||
  c.val = 0x2028 || c.val = 0x2029 || c.val = 0x202F || c.val = 0x205F ||
  c.val = 0x3000 || c.val = 0xFEFF

/-- `trim` on the characters of a string: leading, then trailing white space is dropped. -/
def trimChars (cs : List Char) : List Char :=
  ((cs.dropWhile isJsWhiteSpace).reverse.dropWhile isJsWhiteSpace).reverse

/-- `String.prototype.trim`. -/
def jsTrim (s : String) : String :=
  String.mk (trimChars s.data)

/-- `Array.prototype.join` on an array of strings. -/
def jsJoin (sep : String) (xs : List String) : String :=
  sep.intercalate xs

/-- `Set.prototype.add` on the insertion-ordered contents of a `Set` of strings. -/
def setAdd (s : List String) (x : String) : List String :=
  if x ∈ s then s else s ++ [x]

/-- `[...new Set(xs)]`: the values of `xs` in order of first insertion. -/
def newSet (xs : List String) : List String :=
  xs.foldl setAdd []

/-- `xs.filter(Boolean)` on an array of strings: the empty string is the only falsy one. -/
def filterBoolean (xs : List String) : List String :=
  xs.filter (fun s => s ≠ "")

/-! ## DOM -/

/-- An HTML element of the document: its local name (lower case, as selectors match it), its
class list, the `innerText` the browser renders for it, and its child elements in order. -/
inductive Element where
  | mk (localName : String) (classList : List String) (innerText : String)
      (children : List Element) : Element

namespace Element

def localName : Element → String
  | mk n _ _ _ => n

def classList : Element → List String
  | mk _ c _ _ => c

def innerText : Element → String
  | mk _ _ t _ => t

def children : Element → List Element
  | mk _ _ _ cs => cs

mutual
/-- The descendants of an element in document (pre-order) order, the element itself excluded. -/
def descendants : Element → List Element
  | mk _ _ _ cs => descendantsOfList cs
/-- The elements of a list of sibling subtrees in document order. -/
def descendantsOfList : List Element → List Element
  | [] => []
  | c :: cs => c :: (descendants c ++ descendantsOfList cs)
end

/-- `el.matches("h1")` and the like: a type selector. -/
def matchesTag (el : Element) (tag : String) : Bool :=
  el.localName = tag

/-- `el.matches(".main-headline")` and the like: a class selector. -/
def matchesClass (el : Element) (cls : String) : Bool :=
  cls ∈ el.classList

/-- The test of lines 138-143: `h1`, `.main-headline`, `h1.headline` or `h1.title`. -/
def isHeadline (el : Element) : Bool :=
  el.matchesTag "h1" || el.matchesClass "main-headline" ||
  (el.matchesTag "h1" && el.matchesClass "headline") ||
  (el.matchesTag "h1" && el.matchesClass "title")

/-- The test of line 145: `el.matches("p")`. -/
def isParagraph (el : Element) : Bool :=
  el.matchesTag "p"

/-- `el.matches("h1, .main-headline, h1.headline, h1.title, p")`. -/
def matchesFound (el : Element) : Bool :=
  el.matchesTag "h1" || el.matchesClass "main-headline" ||
  (el.matchesTag "h1" && el.matchesClass "headline") ||
  (el.matchesTag "h1" && el.matchesClass "title") || el.matchesTag "p"

/-- `div.querySelectorAll("h1, .main-headline, h1.headline, h1.title, p")`. -/
def querySelectorAllFound (el : Element) : List Element :=
  el.descendants.filter matchesFound

end Element

/-- The document, given by its root element. -/
structure Document where
  documentElement : Element

/-- Every element of the document in document order. -/
def Document.elements (doc : Document) : List Element :=
  doc.documentElement :: doc.documentElement.descendants

/-- `document.querySelectorAll("div")`. -/
def Document.querySelectorAllDiv (doc : Document) : List Element :=
  doc.elements.filter (fun el => el.matchesTag "div")

/-! ## Extractor -/

/-- The two arrays `extractNews` returns. -/
structure ExtractedContent where
  headlines : List String
  paragraphs : List String
deriving DecidableEq, Repr

/-- The body of `found.forEach` (lines 136-148): one element is classified and its trimmed
`innerText` pushed. -/
def classify (acc : List String × List String) (el : Element) : List String × List String :=
  if el.isHeadline then (acc.1 ++ [jsTrim el.innerText], acc.2)
  else if el.isParagraph then (acc.1, acc.2 ++ [jsTrim el.innerText])
  else acc

/-- The body of `divs.forEach` (lines 133-149). -/
def scanDiv (acc : List String × List String) (div : Element) : List String × List String :=
  div.querySelectorAllFound.foldl classify acc

/-- `extractNews()` (lines 127-159). -/
def extractNews (doc : Document) : ExtractedContent :=
  let divs := doc.querySelectorAllDiv
  let collected := divs.foldl scanDiv ([], [])
  { headlines := filterBoolean (newSet collected.1)
    paragraphs := filterBoolean (newSet collected.2) }

/-- The page of the end-to-end scenario: a `div` holding `<h1>Title</h1>` and two
`<p>Same text</p>`. -/
def scenarioDocument : Document :=
  { documentElement :=
      .mk "html" [] "Title\n\nSame text\n\nSame text" [
        .mk "head" [] "" [],
        .mk "body" [] "Title\n\nSame text\n\nSame text" [
          .mk "div" [] "Title\n\nSame text\n\nSame text" [
            .mk "h1" [] "Title" [],
            .mk "p" [] "Same text" [],
            .mk "p" [] "Same text" []]]] }


/-- A string made of white space only (the empty string included). -/
def whitespaceOnly (s : String) : Bool :=
  s.data.all isJsWhiteSpace

/-- The texts `extractNews` pushes to `headlines` for the elements of `els`, in order. -/
def headlineTexts (els : List Element) : List String :=
  (els.filter Element.isHeadline).map (fun el => jsTrim el.innerText)

/-- The texts `extractNews` pushes to `paragraphs` for the elements of `els`, in order. -/
def paragraphTexts (els : List Element) : List String :=
  (els.filter (fun el => !el.isHeadline && el.isParagraph)).map (fun el => jsTrim el.innerText)

namespace Element

mutual
/-- The elements of the subtree of an element that lie inside a `div` (have a `div` as a proper
ancestor within the subtree), each once, in document order. -/
def insideDiv : Element → List Element
  | mk n _ _ cs => if n = "div" then descendantsOfList cs else insideDivOfList cs
/-- The elements of a list of sibling subtrees that lie inside a `div`, in document order. -/
def insideDivOfList : List Element → List Element
  | [] => []
  | c :: cs => insideDiv c ++ insideDivOfList cs
end

mutual
/-- The sequence of elements the nested loops of `extractNews` visit within the subtree of an
element: for every `div` of the subtree in document order, all its descendants. -/
def visited : Element → List Element
  | mk n _ _ cs => (if n = "div" then descendantsOfList cs else []) ++ visitedOfList cs
/-- The sequence of elements visited within a list of sibling subtrees. -/
def visitedOfList : List Element → List Element
  | [] => []
  | c :: cs => visited c ++ visitedOfList cs
end

end Element

/-- The headline elements of the document in document order, whether inside a `div` or not,
with the text each carries. -/
def Document.headlineTextsInDocumentOrder (doc : Document) : List String :=
  headlineTexts doc.elements

/-- The texts of the headline elements that lie inside a `div`, in document order. -/
def Document.headlineTextsInsideDivs (doc : Document) : List String :=
  headlineTexts doc.documentElement.insideDiv

/-- Every element the loops visit, in the order of the visits. -/
def divScan (els : List Element) : List Element :=
  (els.filter (fun el => el.matchesTag "div")).flatMap Element.descendants

/-- A page with a headline outside every `div`: `<h1>A</h1>` directly under `body`, followed by
a `div` holding `<h1>B</h1>` and `<h1>A</h1>`. -/
def headlineOutsideDivDocument : Document :=
  { documentElement :=
      .mk "html" [] "A\n\nB\n\nA" [
        .mk "head" [] "" [],
        .mk "body" [] "A\n\nB\n\nA" [
          .mk "h1" [] "A" [],
          .mk "div" [] "B\n\nA" [
            .mk "h1" [] "B" [],
            .mk "h1" [] "A" []]]] }

/-- A page with nested `div`s: the inner `div` and its headlines are visited twice. -/
def nestedDivDocument : Document :=
  { documentElement :=
      .mk "html" [] "A\n\nB\n\nC" [
        .mk "body" [] "A\n\nB\n\nC" [
          .mk "div" [] "A\n\nB\n\nC" [
            .mk "h1" [] "A" [],
            .mk "div" [] "B" [.mk "h1" [] " B " []],
            .mk "h1" [] "C" []]]] }

/-! ## JavaScript values -/

/-- A Number. A finite double is given by its exact value (every finite double is a rational;
`-0` is not told apart from `0`, which nothing here distinguishes). -/
inductive JSNumber where
  | finite (x : ℚ)
  | nan
  | posInfinity
  | negInfinity

/-- What `response.json()` can produce, and `undefined` for an absent property. The
properties of an object are its own properties, each key once. -/
inductive JSValue where
  | undefined
  | null
  | boolean (b : Bool)
  | number (n : JSNumber)
  | string (s : String)
  | array (items : List JSValue)
  | object (props : List (String × JSValue))

/-- A thrown `Error`: its name and its `message`. -/
structure JSError where
  name : String
  message : String
deriving DecidableEq, Repr

/-- `Number::toString`. The digits of a finite value come from `fmt`, the engine's
shortest-round-trip printer. -/
def numberToString (fmt : ℚ → String) : JSNumber → String
  | .finite x => fmt x
  | .nan => "NaN"
  | .posInfinity => "Infinity"
  | .negInfinity => "-Infinity"

/-- `Number.prototype.toFixed(f)` for `0 ≤ f ≤ 100`, step by step as ECMAScript defines it:
a non-finite value prints as `Number::toString`; the sign is split off; a magnitude of
`10^21` or more prints as `Number::toString`; otherwise `n` is the integer nearest to
`x * 10^f` (the larger one on a tie), its decimal digits are padded with zeros to `f + 1`
digits and the point is put before the last `f` digits. -/
def toFixed (fmt : ℚ → String) (v : JSNumber) (f : Nat) : String :=
  match v with
  | .finite q =>
    let s := if q < 0 then "-" else ""
    let x := if q < 0 then -q else q
    if (10 : ℚ) ^ 21 ≤ x then s ++ fmt x
    else
      let n : Nat := (Rat.floor (x * (10 : ℚ) ^ f + 1 / 2)).toNat
      let m := (Nat.repr n).data
      if f = 0 then s ++ String.mk m
      else
        let m := if m.length ≤ f then List.replicate (f + 1 - m.length) '0' ++ m else m
        let k := m.length
        s ++ String.mk (m.take (k - f) ++ '.' :: m.drop (k - f))
  | other => numberToString fmt other

/-- `ToBoolean`. -/
def toBoolean : JSValue → Bool
  | .undefined => false
  | .null => false
  | .boolean b => b
  | .number (.finite x) => x ≠ 0
  | .number .nan => false
  | .number _ => true
  | .string s => s ≠ ""
  | .array _ => true
  | .object _ => true

/-- The `TypeError` of `OrdinaryToPrimitive` (V8 wording). -/
def cannotConvertError : JSError :=
  { name := "TypeError", message := "Cannot convert object to primitive value" }

mutual
/-- `ToString`, as `String(v)` and a template literal apply it. An array prints through
`Array.prototype.join`. A plain object prints as `[object Object]`, unless it has an own
property `toString`: a parsed value is never callable, `Object.prototype.valueOf` (or an own
`valueOf`) gives no primitive either, and the conversion throws. -/
def toStringJS (fmt : ℚ → String) : JSValue → Except JSError String
  | .undefined => .ok "undefined"
  | .null => .ok "null"
  | .boolean b => .ok (if b then "true" else "false")
  | .number n => .ok (numberToString fmt n)
  | .string s => .ok s
  | .array items => (itemStrings fmt items).map (fun ss => ",".intercalate ss)
  | .object props =>
    if props.any (fun p => p.1 = "toString") then .error cannotConvertError
    else .ok "[object Object]"
/-- The strings `Array.prototype.join` puts between the separators: the empty string for
`undefined` and `null`, `ToString` of the element otherwise. -/
def itemStrings (fmt : ℚ → String) : List JSValue → Except JSError (List String)
  | [] => .ok []
  | .undefined :: rest => (itemStrings fmt rest).map (fun ss => "" :: ss)
  | .null :: rest => (itemStrings fmt rest).map (fun ss => "" :: ss)
  | v :: rest =>
    match toStringJS fmt v with
    | .error e => .error e
    | .ok s => (itemStrings fmt rest).map (fun ss => s :: ss)
end

/-- The `TypeError` of a property read on `null` or `undefined` (V8 wording). -/
def cannotReadError (base key : String) : JSError :=
  { name := "TypeError"
    message := "Cannot read properties of " ++ base ++ " (reading \x27" ++ key ++ "\x27)" }

/-- The read `result.key` for the keys the script reads (`trusted_news`, `trust_score`,
`verdict`, `is_fake`, `correct_information`): none of them is defined on a built-in
prototype, so the value is the own property or `undefined`; on `null` and `undefined` the
read throws. -/
def getProperty (v : JSValue) (key : String) : Except JSError JSValue :=
  match v with
  | .undefined => .error (cannotReadError "undefined" key)
  | .null => .error (cannotReadError "null" key)
  | .object props => .ok ((props.lookup key).getD .undefined)
  | _ => .ok .undefined

/-! ## Presentation panel -/

/-- The markup of the loading view (lines 79-82). -/
def loadingHtml : String :=
  "<div style=\"display:flex;flex-direction:column;align-items:center;justify-content:center;height:100px;\">\n        <span style=\"font-size:2em;\">⏳</span>\n        <b style=\"margin-top:10px;\">Loading verdict...</b>\n      </div>"

/-- The constant `trustedNewsValue` (lines 85-89). -/
def trustedNewsValue (fmt : ℚ → String) (result : JSValue) : Except JSError String := do
  let trusted_news ← getProperty result "trusted_news"
  match trusted_news with
  | .string s => if jsTrim s ≠ "" then pure s else toStringJS fmt (.string s)
  | .null => pure "N/A"
  | .undefined => pure "N/A"
  | v => toStringJS fmt v

/-- The trust-score hole of the template (line 92). -/
def trustScoreText (fmt : ℚ → String) (result : JSValue) : Except JSError String := do
  let trust_score ← getProperty result "trust_score"
  match trust_score with
  | .number n => pure (toFixed fmt n 2)
  | v => toStringJS fmt v

/-- The verdict hole of the template (line 93). -/
def verdictText (fmt : ℚ → String) (result : JSValue) : Except JSError String := do
  let verdict ← getProperty result "verdict"
  if toBoolean verdict then toStringJS fmt verdict
  else
    let is_fake ← getProperty result "is_fake"
    match is_fake with
    | .boolean false => pure "Trustworthy"
    | .boolean true => pure "Fake"
    | _ => pure "Unknown"

/-- The correct-information hole of the template (line 94). -/
def correctInformationHtml (fmt : ℚ → String) (result : JSValue) : Except JSError String := do
  let correct_information ← getProperty result "correct_information"
  if toBoolean correct_information then
    let text ← toStringJS fmt correct_information
    pure ("<b>Correct Info:</b> <span style=\"font-size:0.95em\">" ++ text ++ "</span><br>")
  else pure ""

/-- The markup of the result view (lines 85-97), or the error thrown while it is built:
`trustedNewsValue` is computed first, then the holes of the template from left to right. -/
def resultHtml (fmt : ℚ → String) (result : JSValue) : Except JSError String := do
  let trustedNews ← trustedNewsValue fmt result
  let trustScore ← trustScoreText fmt result
  let verdict ← verdictText fmt result
  let correctInfo ← correctInformationHtml fmt result
  pure ("\n        <b>📰 Fake News Detection Result</b><br><br>\n        <b>Trust Score:</b> " ++
    trustScore ++ "<br>\n        <b>Verdict:</b> " ++ verdict ++ "<br>\n        " ++
    correctInfo ++ "\n        <b>Trusted News:</b> <span style=\"font-size:0.95em\">" ++
    trustedNews ++ "</span><br>\n        <button id=\"close-fake-news-extension-panel\" style=\"margin-top:10px;padding:4px 10px;\">Close</button>\n    ")

/-- The result view as the statements below expect it: the markup of lines 90-97 with
`trustScore` after "Trust Score:", `verdict` after "Verdict:", `correctInfo` on the line
that follows, and `trustedNews` inside the span after "Trusted News:". -/
def resultView (trustScore verdict correctInfo trustedNews : String) : String :=
  "\n        <b>📰 Fake News Detection Result</b><br><br>\n        <b>Trust Score:</b> " ++
    trustScore ++ "<br>\n        <b>Verdict:</b> " ++ verdict ++ "<br>\n        " ++
    correctInfo ++ "\n        <b>Trusted News:</b> <span style=\"font-size:0.95em\">" ++
    trustedNews ++ "</span><br>\n        <button id=\"close-fake-news-extension-panel\" style=\"margin-top:10px;padding:4px 10px;\">Close</button>\n    "

/-- A numeral with exactly two decimal places: an optional minus sign, one or more digits, a
point, two digits. -/
def hasTwoDecimals (s : String) : Bool :=
  match s.data.reverse with
  | d2 :: d1 :: '.' :: whole =>
    d1.isDigit && d2.isDigit &&
      (match whole.reverse with
       | '-' :: ds => !ds.isEmpty && ds.all Char.isDigit
       | ds => !ds.isEmpty && ds.all Char.isDigit)
  | _ => false

/-! ## Page state and request flows -/

/-- An outbound `fetch`: URL, method, `Content-Type` header and body. -/
structure Request where
  url : String
  method : String
  contentType : String
  body : String
deriving DecidableEq, Repr

/-- What the script does to the outside, in the order it does it. -/
inductive Action where
  | createPanel
  | setPanelHtml (html : String)
  | fetch (request : Request)
  | alert (message : String)
  | consoleError (label message : String)
deriving DecidableEq, Repr

/-- The part of the page the script owns: the `display` of the popup, the `innerHTML` of the
panel `#fake-news-extension-panel` (`none` while the element is not in the document), and the
log of actions so far. -/
structure Page where
  popupDisplay : String
  panel : Option String
  log : List Action
deriving DecidableEq, Repr

/-- A page on which the script has just been injected. -/
def Page.initial : Page :=
  { popupDisplay := "none", panel := none, log := [] }

/-- The states of the panel the specification names. -/
inductive PanelState where
  | hidden
  | loading
  | showing (html : String)
deriving DecidableEq, Repr

/-- The state the panel is in. -/
def Page.panelState (page : Page) : PanelState :=
  match page.panel with
  | none => .hidden
  | some html => if html = loadingHtml then .loading else .showing html

/-- The requests issued so far. -/
def requestsOf : List Action → List Request
  | [] => []
  | .fetch r :: rest => r :: requestsOf rest
  | _ :: rest => requestsOf rest

/-- The alerts shown so far. -/
def alertsOf : List Action → List String
  | [] => []
  | .alert m :: rest => m :: alertsOf rest
  | _ :: rest => alertsOf rest

/-- How a request ends: the `fetch` promise rejects with an error of the given message, or a
response arrives with a status code and a body that `json()` either rejects (with the given
message) or parses. -/
inductive FetchOutcome where
  | rejected (message : String)
  | response (status : Nat) (json : Except String JSValue)

/-- `response.ok`. -/
def statusOk (status : Nat) : Bool :=
  200 ≤ status && status ≤ 299

/-- The four-digit lower-case hexadecimal form of a code unit below `0x20`. -/
def hex4 (n : Nat) : String :=
  String.mk ['0', '0', Nat.digitChar (n / 16), Nat.digitChar (n % 16)]

/-- `QuoteJSONString` on one code point. -/
def quoteJSONChar (c : Char) : String :=
  if c.val = 0x08 then "\\b"
  else if c.val = 0x09 then "\\t"
  else if c.val = 0x0A then "\\n"
  else if c.val = 0x0C then "\\f"
  else if c.val = 0x0D then "\\r"
  else if c.val = 0x22 then "\\\""
  else if c.val = 0x5C then "\\\\"
  else if c.val < 0x20 then "\\u" ++ hex4 c.toNat
  else String.singleton c

/-- `QuoteJSONString`. -/
def quoteJSONString (s : String) : String :=
  "\"" ++ String.join (s.data.map quoteJSONChar) ++ "\""

/-- `JSON.stringify(\x7b text: s \x7d)`. -/
def jsonStringifyText (s : String) : String :=
  "\x7b\"text\":" ++ quoteJSONString s ++ "\x7d"

/-- The constant `BACKEND_URL` (line 3). -/
def BACKEND_URL : String := "http://localhost:8000/analyze_news/"

/-- The URL `sendToBackend` posts to (line 165). -/
def RAG_PIPELINE_URL : String := "http://127.0.0.1:8000/run_rag_pipeline/"

/-- `showDetectionResult(result, isLoading)` (lines 56-102): the panel is created if it is
missing, then filled with the loading view or the result view. An error thrown while the
result view is built leaves the panel as it was before the assignment. The model ends with
the assignment of line 90: line 98 then looks the close button up in the markup just written
and hangs the handler of lines 98-101 on it, which needs the HTML parser and is not
modelled; the first component of the result, the page after line 90, does not depend on
it. -/
def showDetectionResult (fmt : ℚ → String) (result : JSValue) (isLoading : Bool) (page : Page) :
    Page × Option JSError :=
  let page :=
    match page.panel with
    | none => { page with panel := some "", log := page.log ++ [.createPanel] }
    | some _ => page
  if isLoading then
    ({ page with panel := some loadingHtml, log := page.log ++ [.setPanelHtml loadingHtml] }, none)
  else
    match resultHtml fmt result with
    | .error e => (page, some e)
    | .ok html => ({ page with panel := some html, log := page.log ++ [.setPanelHtml html] }, none)

/-- The `catch` of `checkNewsAuthenticity` (lines 121-123). -/
def alertError (message : String) (page : Page) : Page :=
  { page with log := page.log ++ [.alert ("Error checking news authenticity: " ++ message)] }

/-- `checkNewsAuthenticity(newsText)` (lines 105-124), run to completion against the outcome
of its request. -/
def checkNewsAuthenticity (fmt : ℚ → String) (newsText : String) (outcome : FetchOutcome)
    (page : Page) : Page :=
  let page := { page with log := page.log ++ [.fetch
    { url := BACKEND_URL, method := "POST", contentType := "application/json"
      body := jsonStringifyText newsText }] }
  match outcome with
  | .rejected message => alertError message page
  | .response status json =>
    if !statusOk status then alertError "Network response was not ok" page
    else
      match json with
      | .error message => alertError message page
      | .ok result =>
        match showDetectionResult fmt result false page with
        | (page, none) => page
        | (page, some e) => alertError e.message page

/-- The argument of `sendToBackend`. -/
structure NewsData where
  headline : String
  description : String
deriving DecidableEq, Repr

/-- The text `sendToBackend` submits (line 164). -/
def fullText (data : NewsData) : String :=
  "📰 Headline:\n" ++ data.headline ++ "\n\n📄 Description:\n" ++ data.description

/-- The `.catch` of `sendToBackend` (lines 176-179). -/
def logAndAlertError (message : String) (page : Page) : Page :=
  { page with log := page.log ++
      [.consoleError "❌ Failed to send data:" message,
       .alert ("Error checking news authenticity: " ++ message)] }

/-- `sendToBackend(data)` (lines 162-180), run to completion against the outcome of its
request. The status of the response is not looked at. -/
def sendToBackend (fmt : ℚ → String) (data : NewsData) (outcome : FetchOutcome) (page : Page) :
    Page :=
  let page := (showDetectionResult fmt (.object []) true page).1
  let page := { page with log := page.log ++ [.fetch
    { url := RAG_PIPELINE_URL, method := "POST", contentType := "application/json"
      body := jsonStringifyText (fullText data) }] }
  match outcome with
  | .rejected message => logAndAlertError message page
  | .response _ json =>
    match json with
    | .error message => logAndAlertError message page
    | .ok result =>
      match showDetectionResult fmt result false page with
      | (page, none) => page
      | (page, some e) => logAndAlertError e.message page

/-- The click handler of the floating icon (lines 183-192). -/
def buttonClick (fmt : ℚ → String) (doc : Document) (outcome : FetchOutcome) (page : Page) :
    Page :=
  let page := { page with popupDisplay := "none" }
  let page := (showDetectionResult fmt (.object []) true page).1
  let data := extractNews doc
  sendToBackend fmt
    { headline := jsJoin " | " data.headlines, description := jsJoin " " data.paragraphs }
    outcome page

/-- The length of a string in UTF-16 code units, as `length` counts. -/
def utf16Length (s : String) : Nat :=
  (s.data.map (fun c => if c.val < 0x10000 then 1 else 2)).sum

/-- The `mouseup` handler (lines 213-220): `selected` is `window.getSelection().toString()`,
`confirmed` the answer to the `confirm` dialog, asked only for a long enough selection. -/
def mouseUp (fmt : ℚ → String) (selected : String) (confirmed : Bool) (outcome : FetchOutcome)
    (page : Page) : Page :=
  let selection := jsTrim selected
  if utf16Length selection > 20 then
    if confirmed then checkNewsAuthenticity fmt selection outcome page else page
  else page

/-- A page without any `div`. -/
def emptyDocument : Document :=
  { documentElement := .mk "html" [] "" [.mk "head" [] "" [], .mk "body" [] "" []] }

/-- The double nearest to `0.8567`, exactly. -/
def double_0_8567 : ℚ := 241139612548019 / 281474976710656

/-- The request `sendToBackend` issues for `data`. -/
def pipelineRequest (data : NewsData) : Request :=
  { url := RAG_PIPELINE_URL, method := "POST", contentType := "application/json"
    body := jsonStringifyText (fullText data) }

/-- The request `checkNewsAuthenticity` issues for `newsText`. -/
def analyzeRequest (newsText : String) : Request :=
  { url := BACKEND_URL, method := "POST", contentType := "application/json"
    body := jsonStringifyText newsText }

/-- The content of the panel at the moment the first request of `actions` is issued, when the
panel held `panel` before them; `none` when `actions` issues no request. -/
def panelAtFirstFetch (panel : Option String) : List Action → Option (Option String)
  | [] => none
  | .fetch _ :: _ => some panel
  | .createPanel :: rest => panelAtFirstFetch (some "") rest
  | .setPanelHtml html :: rest => panelAtFirstFetch (some html) rest
  | _ :: rest => panelAtFirstFetch panel rest

/-- The record `\x7bverdict: "", is_fake: true\x7d`. -/
def emptyVerdictRecord : List (String × JSValue) :=
  [("verdict", .string ""), ("is_fake", .boolean true)]

/-- An object that has no string form: `\x7b"toString": 1\x7d`. -/
def unprintableValue : JSValue :=
  .object [("toString", .number (.finite 1))]

/-- The page `showDetectionResult` leaves behind when it throws on a fresh page: the panel
has been created and appended, and nothing has been written to it. -/
def emptyPanelPage : Page :=
  { popupDisplay := "none", panel := some "", log := [.createPanel] }

/-- The JSON body of a `404` answer of the backend. -/
def notFoundBody : JSValue :=
  .object [("detail", .string "Not Found")]

/-- The result view for a record without any of the expected fields. -/
def unknownResultHtml : String :=
  "\n        <b>📰 Fake News Detection Result</b><br><br>\n        <b>Trust Score:</b> undefined<br>\n        <b>Verdict:</b> Unknown<br>\n        \n        <b>Trusted News:</b> <span style=\"font-size:0.95em\">N/A</span><br>\n        <button id=\"close-fake-news-extension-panel\" style=\"margin-top:10px;padding:4px 10px;\">Close</button>\n    "

/-! ## Lemmas: strings and sets -/

theorem newSet_snoc (xs : List String) (x : String) :
    newSet (xs ++ [x]) = setAdd (newSet xs) x := by
  simp [newSet, List.foldl_append]

theorem mem_setAdd (s : List String) (x y : String) : y ∈ setAdd s x ↔ y ∈ s ∨ y = x := by
  unfold setAdd
  split
  · constructor
    · intro h; exact Or.inl h
    · rintro (h | h)
      · exact h
      · subst h; assumption
  · simp

theorem mem_newSet (xs : List String) (y : String) : y ∈ newSet xs ↔ y ∈ xs := by
  induction xs using List.reverseRecOn with
  | nil => simp [newSet]
  | append_singleton xs x ih => rw [newSet_snoc, mem_setAdd, ih]; simp

theorem nodup_setAdd (s : List String) (x : String) (h : s.Nodup) : (setAdd s x).Nodup := by
  unfold setAdd
  split
  · exact h
  · rw [List.nodup_append]
    refine ⟨h, List.nodup_singleton x, ?_⟩
    intro a ha hb
    simp at hb
    subst hb
    contradiction

theorem nodup_newSet (xs : List String) : (newSet xs).Nodup := by
  induction xs using List.reverseRecOn with
  | nil => simp [newSet]
  | append_singleton xs x ih => rw [newSet_snoc]; exact nodup_setAdd _ _ ih

/-- The set built from a concatenation: the second part adds, in its own first-occurrence
order, the values the first part lacks. -/
theorem newSet_append (L M : List String) :
    newSet (L ++ M) = newSet L ++ (newSet M).filter (fun x => decide (x ∉ L)) := by
  induction M using List.reverseRecOn with
  | nil => simp [newSet]
  | append_singleton M x ih =>
    rw [← List.append_assoc, newSet_snoc, newSet_snoc, ih]
    unfold setAdd
    by_cases hL : x ∈ L
    · have h1 : x ∈ newSet L ++ List.filter (fun x => decide (x ∉ L)) (newSet M) := by
        simp [mem_newSet, hL]
      rw [if_pos h1]
      by_cases hM : x ∈ newSet M
      · rw [if_pos hM]
      · rw [if_neg hM]; simp [List.filter_append, hL]
    · by_cases hM : x ∈ newSet M
      · have h1 : x ∈ newSet L ++ List.filter (fun x => decide (x ∉ L)) (newSet M) := by
          simp [hM, hL]
        rw [if_pos h1, if_pos hM]
      · have h1 : x ∉ newSet L ++ List.filter (fun x => decide (x ∉ L)) (newSet M) := by
          simp [hM, hL, mem_newSet]
        rw [if_neg h1, if_neg hM]; simp [List.filter_append, hL]

/-- Values already seen do not change the set. -/
theorem newSet_append_of_subset (L M : List String) (h : ∀ x ∈ M, x ∈ L) :
    newSet (L ++ M) = newSet L := by
  rw [newSet_append]
  have : (newSet M).filter (fun x => decide (x ∉ L)) = [] := by
    rw [List.filter_eq_nil_iff]
    intro a ha
    have := h a ((mem_newSet M a).1 ha)
    simp [this]
  rw [this, List.append_nil]

/-- The set of a concatenation depends only on the sets of the parts. -/
theorem newSet_append_congr {L L' M M' : List String} (hL : newSet L = newSet L')
    (hM : newSet M = newSet M') : newSet (L ++ M) = newSet (L' ++ M') := by
  rw [newSet_append, newSet_append, hL, hM]
  congr 1
  apply List.filter_congr
  intro x _
  have : x ∈ L ↔ x ∈ L' := by rw [← mem_newSet L, ← mem_newSet L', hL]
  simp [this]

theorem mem_filterBoolean (xs : List String) (s : String) :
    s ∈ filterBoolean xs ↔ s ∈ xs ∧ s ≠ "" := by
  simp [filterBoolean]

theorem jsTrim_eq_empty_iff (s : String) : jsTrim s = "" ↔ whitespaceOnly s = true := by
  unfold jsTrim whitespaceOnly trimChars
  rw [show ("" : String) = String.mk [] from rfl, String.ext_iff]
  show (List.dropWhile isJsWhiteSpace (List.dropWhile isJsWhiteSpace s.data).reverse).reverse = [] ↔ _
  rw [List.reverse_eq_nil_iff, List.dropWhile_eq_nil_iff]
  constructor
  · intro h
    rw [List.all_eq_true]
    intro c hc
    by_contra hne
    have hmem : ∀ l : List Char, c ∈ l → c ∈ l.dropWhile isJsWhiteSpace := by
      intro l
      induction l with
      | nil => simp
      | cons a l ih =>
        intro hcl
        rw [List.dropWhile_cons]
        split
        · rcases List.mem_cons.1 hcl with h1 | h1
          · subst h1; contradiction
          · exact ih h1
        · exact hcl
    exact hne (h c (List.mem_reverse.2 (hmem _ hc)))
  · intro h
    rw [List.all_eq_true] at h
    intro c hc
    exact h c ((List.dropWhile_sublist _).subset (List.mem_reverse.1 hc))

theorem not_whitespaceOnly_jsTrim (s : String) (h : jsTrim s ≠ "") :
    whitespaceOnly (jsTrim s) = false := by
  unfold jsTrim whitespaceOnly trimChars at *
  have hne : (List.dropWhile isJsWhiteSpace (List.dropWhile isJsWhiteSpace s.data).reverse) ≠ [] := by
    intro h0
    apply h
    rw [h0]; rfl
  have hhead := List.head_dropWhile_not isJsWhiteSpace _ hne
  rw [Bool.eq_false_iff]
  intro hall
  rw [List.all_eq_true] at hall
  have := hall _ (List.mem_reverse.2 (List.head_mem hne))
  rw [hhead] at this
  exact Bool.false_ne_true this

/-! ## Lemmas: the scan of `extractNews` -/

theorem headlineTexts_append (a b : List Element) :
    headlineTexts (a ++ b) = headlineTexts a ++ headlineTexts b := by
  simp [headlineTexts, List.filter_append]

theorem paragraphTexts_append (a b : List Element) :
    paragraphTexts (a ++ b) = paragraphTexts a ++ paragraphTexts b := by
  simp [paragraphTexts, List.filter_append]

theorem mem_headlineTexts (els : List Element) (s : String) :
    s ∈ headlineTexts els ↔ ∃ el ∈ els, el.isHeadline = true ∧ jsTrim el.innerText = s := by
  simp [headlineTexts, and_assoc]

theorem mem_paragraphTexts (els : List Element) (s : String) :
    s ∈ paragraphTexts els ↔
      ∃ el ∈ els, (el.isHeadline = false ∧ el.isParagraph = true) ∧ jsTrim el.innerText = s := by
  simp [paragraphTexts, and_assoc]

/-- The selector list of `querySelectorAll` lets through every element the loop body uses. -/
theorem headlineTexts_filter_matchesFound (els : List Element) :
    headlineTexts (els.filter Element.matchesFound) = headlineTexts els := by
  unfold headlineTexts
  rw [List.filter_filter]
  congr 1
  apply List.filter_congr
  intro el _
  unfold Element.matchesFound Element.isHeadline
  cases el.matchesTag "h1" <;> cases el.matchesClass "main-headline" <;>
    cases el.matchesClass "headline" <;> cases el.matchesClass "title" <;>
    cases el.matchesTag "p" <;> rfl

theorem paragraphTexts_filter_matchesFound (els : List Element) :
    paragraphTexts (els.filter Element.matchesFound) = paragraphTexts els := by
  unfold paragraphTexts
  rw [List.filter_filter]
  congr 1
  apply List.filter_congr
  intro el _
  unfold Element.matchesFound Element.isHeadline Element.isParagraph
  cases el.matchesTag "h1" <;> cases el.matchesClass "main-headline" <;>
    cases el.matchesClass "headline" <;> cases el.matchesClass "title" <;>
    cases el.matchesTag "p" <;> rfl

theorem foldl_classify (found : List Element) (acc : List String × List String) :
    found.foldl classify acc = (acc.1 ++ headlineTexts found, acc.2 ++ paragraphTexts found) := by
  induction found generalizing acc with
  | nil => simp [headlineTexts, paragraphTexts]
  | cons el found ih =>
    rw [List.foldl_cons, ih]
    unfold classify
    by_cases h : el.isHeadline = true
    · simp [h, headlineTexts, paragraphTexts, List.filter_cons]
    · by_cases hp : el.isParagraph = true
      · simp [h, hp, headlineTexts, paragraphTexts, List.filter_cons]
      · simp [h, hp, headlineTexts, paragraphTexts, List.filter_cons]

theorem scanDiv_eq (acc : List String × List String) (div : Element) :
    scanDiv acc div =
      (acc.1 ++ headlineTexts div.descendants, acc.2 ++ paragraphTexts div.descendants) := by
  unfold scanDiv Element.querySelectorAllFound
  rw [foldl_classify, headlineTexts_filter_matchesFound, paragraphTexts_filter_matchesFound]

theorem foldl_scanDiv (divs : List Element) (acc : List String × List String) :
    divs.foldl scanDiv acc =
      (acc.1 ++ headlineTexts (divs.flatMap Element.descendants),
       acc.2 ++ paragraphTexts (divs.flatMap Element.descendants)) := by
  induction divs generalizing acc with
  | nil => simp [headlineTexts, paragraphTexts]
  | cons d divs ih =>
    rw [List.foldl_cons, ih, scanDiv_eq]
    simp [List.flatMap_cons, headlineTexts_append, paragraphTexts_append, List.append_assoc]

theorem divScan_append (a b : List Element) : divScan (a ++ b) = divScan a ++ divScan b := by
  simp [divScan, List.filter_append, List.flatMap_append]

mutual
theorem divScan_descendants : ∀ e : Element, divScan (e :: e.descendants) = e.visited
  | .mk n c t cs => by
    have ih := divScan_descendantsOfList cs
    rw [Element.visited, Element.descendants, ← ih]
    by_cases h : n = "div"
    · simp [divScan, List.filter_cons, Element.matchesTag, Element.localName, h,
        Element.descendants]
    · simp [divScan, List.filter_cons, Element.matchesTag, Element.localName, h]
theorem divScan_descendantsOfList : ∀ cs : List Element,
    divScan (Element.descendantsOfList cs) = Element.visitedOfList cs
  | [] => by simp [divScan, Element.descendantsOfList, Element.visitedOfList]
  | c :: cs => by
    have h1 := divScan_descendants c
    have h2 := divScan_descendantsOfList cs
    rw [Element.descendantsOfList, Element.visitedOfList, ← h1, ← h2]
    rw [← List.cons_append, divScan_append]
end

/-- The arrays `extractNews` returns, in closed form. -/
theorem extractNews_eq (doc : Document) :
    extractNews doc =
      { headlines := filterBoolean (newSet (headlineTexts doc.documentElement.visited))
        paragraphs := filterBoolean (newSet (paragraphTexts doc.documentElement.visited)) } := by
  unfold extractNews
  simp only [foldl_scanDiv, List.nil_append]
  have : doc.querySelectorAllDiv.flatMap Element.descendants = doc.documentElement.visited := by
    rw [← divScan_descendants]; rfl
  rw [this]

mutual
/-- Whatever the loops visit in a subtree is a descendant of its root. -/
theorem visited_subset : ∀ (e : Element) (x : Element), x ∈ e.visited → x ∈ e.descendants
  | .mk n c t cs, x => by
    intro hx
    rw [Element.visited] at hx
    rw [Element.descendants]
    rcases List.mem_append.1 hx with h | h
    · split at h
      · exact h
      · simp at h
    · exact visitedOfList_subset cs x h
theorem visitedOfList_subset : ∀ (cs : List Element) (x : Element),
    x ∈ Element.visitedOfList cs → x ∈ Element.descendantsOfList cs
  | [], x => by simp [Element.visitedOfList]
  | c :: cs, x => by
    intro hx
    rw [Element.visitedOfList] at hx
    rw [Element.descendantsOfList]
    rcases List.mem_append.1 hx with h | h
    · exact List.mem_cons_of_mem _ (List.mem_append_left _ (visited_subset c x h))
    · exact List.mem_cons_of_mem _ (List.mem_append_right _ (visitedOfList_subset cs x h))
end

theorem headlineTexts_subset {a b : List Element} (h : ∀ x ∈ a, x ∈ b) :
    ∀ s ∈ headlineTexts a, s ∈ headlineTexts b := by
  intro s hs
  rw [mem_headlineTexts] at hs ⊢
  obtain ⟨el, hel, h1⟩ := hs
  exact ⟨el, h el hel, h1⟩

mutual
/-- Visiting the elements of nested `div`s again adds no new text and moves none: the set of
headline texts is the one a single pass over the elements inside `div`s builds. -/
theorem newSet_headlineTexts_visited : ∀ e : Element,
    newSet (headlineTexts e.visited) = newSet (headlineTexts e.insideDiv)
  | .mk n c t cs => by
    rw [Element.visited, Element.insideDiv]
    by_cases h : n = "div"
    · rw [if_pos h, if_pos h, headlineTexts_append]
      exact newSet_append_of_subset _ _
        (headlineTexts_subset (visitedOfList_subset cs))
    · rw [if_neg h, if_neg h, List.nil_append]
      exact newSet_headlineTexts_visitedOfList cs
theorem newSet_headlineTexts_visitedOfList : ∀ cs : List Element,
    newSet (headlineTexts (Element.visitedOfList cs)) =
      newSet (headlineTexts (Element.insideDivOfList cs))
  | [] => by rw [Element.visitedOfList, Element.insideDivOfList]
  | c :: cs => by
    rw [Element.visitedOfList, Element.insideDivOfList, headlineTexts_append,
      headlineTexts_append]
    exact newSet_append_congr (newSet_headlineTexts_visited c)
      (newSet_headlineTexts_visitedOfList cs)
end

theorem headlines_eq (doc : Document) :
    (extractNews doc).headlines = filterBoolean (newSet doc.headlineTextsInsideDivs) := by
  rw [extractNews_eq]
  show filterBoolean (newSet (headlineTexts doc.documentElement.visited)) = _
  rw [newSet_headlineTexts_visited]
  rfl

theorem extractNews_eq_flatMap (doc : Document) :
    extractNews doc =
      { headlines := filterBoolean
          (newSet (headlineTexts (doc.querySelectorAllDiv.flatMap Element.descendants)))
        paragraphs := filterBoolean
          (newSet (paragraphTexts (doc.querySelectorAllDiv.flatMap Element.descendants))) } := by
  unfold extractNews
  simp only [foldl_scanDiv, List.nil_append]

theorem indexOf_filter_lt_iff (p : String → Bool) (M : List String) (x y : String)
    (hx : p x = true) (hy : p y = true) :
    List.indexOf x (M.filter p) < List.indexOf y (M.filter p) ↔
      List.indexOf x M < List.indexOf y M := by
  induction M with
  | nil => simp
  | cons m M ih =>
    by_cases hmx : m = x
    · subst hmx
      by_cases hxy : m = y
      · subst hxy; simp [List.filter_cons, hx]
      · simp [List.filter_cons, hx, List.indexOf_cons, hxy]
    · by_cases hmy : m = y
      · subst hmy
        simp [List.filter_cons, hy, List.indexOf_cons, hmx]
      · by_cases hpm : p m = true
        · simp [List.filter_cons, hpm, List.indexOf_cons, hmx, hmy, ih]
        · simp [List.filter_cons, hpm, List.indexOf_cons, hmx, hmy, ih]

theorem newSet_cons (x : String) (xs : List String) :
    newSet (x :: xs) = x :: (newSet xs).filter (fun y => decide (y ≠ x)) := by
  have h := newSet_append [x] xs
  have h1 : newSet [x] = [x] := by simp [newSet, setAdd]
  rw [h1] at h
  simpa using h

/-- A `Set` lists its values in the order of their first occurrences. -/
theorem indexOf_newSet_lt_iff (L : List String) (x y : String) :
    List.indexOf x (newSet L) < List.indexOf y (newSet L) ↔
      List.indexOf x L < List.indexOf y L := by
  induction L with
  | nil => simp [newSet]
  | cons m L ih =>
    rw [newSet_cons]
    by_cases hmx : m = x
    · subst hmx
      by_cases hxy : m = y
      · subst hxy; simp
      · simp [List.indexOf_cons, hxy]
    · by_cases hmy : m = y
      · subst hmy
        simp [List.indexOf_cons, hmx]
      · have hx : (fun z : String => decide (z ≠ m)) x = true := by
          simp; exact fun h => hmx h.symm
        have hy : (fun z : String => decide (z ≠ m)) y = true := by
          simp; exact fun h => hmy h.symm
        have := indexOf_filter_lt_iff (fun z : String => decide (z ≠ m)) (newSet L) x y hx hy
        rw [List.indexOf_cons_ne _ hmx, List.indexOf_cons_ne _ hmy, List.indexOf_cons_ne _ hmx,
          List.indexOf_cons_ne _ hmy, Nat.succ_lt_succ_iff, Nat.succ_lt_succ_iff, this, ih]

mutual
/-- The elements inside `div`s are listed in document order. -/
theorem insideDiv_sublist : ∀ e : Element, e.insideDiv.Sublist e.descendants
  | .mk n c t cs => by
    rw [Element.insideDiv, Element.descendants]
    split
    · exact List.Sublist.refl _
    · exact insideDivOfList_sublist cs
theorem insideDivOfList_sublist : ∀ cs : List Element,
    (Element.insideDivOfList cs).Sublist (Element.descendantsOfList cs)
  | [] => by rw [Element.insideDivOfList, Element.descendantsOfList]
  | c :: cs => by
    rw [Element.insideDivOfList, Element.descendantsOfList]
    exact List.Sublist.cons _ ((insideDiv_sublist c).append (insideDivOfList_sublist cs))
end

theorem headlineTextsInsideDivs_sublist (doc : Document) :
    doc.headlineTextsInsideDivs.Sublist doc.headlineTextsInDocumentOrder := by
  unfold Document.headlineTextsInsideDivs Document.headlineTextsInDocumentOrder headlineTexts
    Document.elements
  exact (((insideDiv_sublist doc.documentElement).cons _).filter _).map _

/-! ## Extractor: claims -/

/-- C1: for every document, `extractNews` returns two lists without duplicates and without
the empty string; a string is in `headlines` (in `paragraphs`) exactly when it is non-empty
and is the trimmed `innerText` of a headline (paragraph) element found below some `div`; no
returned string is white space only, and an element whose text is white space only trims to
the empty string and so contributes nothing. On the scenario page (a `div` with one
`<h1>Title</h1>` and two `<p>Same text</p>`) the result is `["Title"]` and `["Same text"]`. -/
theorem extractNews_no_duplicates_no_empty :
    (∀ doc : Document,
      (extractNews doc).headlines.Nodup ∧ (extractNews doc).paragraphs.Nodup ∧
      "" ∉ (extractNews doc).headlines ∧ "" ∉ (extractNews doc).paragraphs ∧
      (∀ s : String, s ∈ (extractNews doc).headlines ↔
        s ≠ "" ∧ ∃ div ∈ doc.querySelectorAllDiv, ∃ el ∈ div.descendants,
          el.isHeadline = true ∧ jsTrim el.innerText = s) ∧
      (∀ s : String, s ∈ (extractNews doc).paragraphs ↔
        s ≠ "" ∧ ∃ div ∈ doc.querySelectorAllDiv, ∃ el ∈ div.descendants,
          (el.isHeadline = false ∧ el.isParagraph = true) ∧ jsTrim el.innerText = s) ∧
      (∀ s : String, s ∈ (extractNews doc).headlines ∨ s ∈ (extractNews doc).paragraphs →
        whitespaceOnly s = false)) ∧
    (∀ t : String, jsTrim t = "" ↔ whitespaceOnly t = true) ∧
    extractNews scenarioDocument = { headlines := ["Title"], paragraphs := ["Same text"] } := by
  refine ⟨fun doc => ?_, jsTrim_eq_empty_iff, by decide⟩
  have hH : ∀ s : String, s ∈ (extractNews doc).headlines ↔
      s ≠ "" ∧ ∃ div ∈ doc.querySelectorAllDiv, ∃ el ∈ div.descendants,
        el.isHeadline = true ∧ jsTrim el.innerText = s := by
    intro s
    rw [extractNews_eq_flatMap]
    simp only [mem_filterBoolean, mem_newSet, mem_headlineTexts, List.mem_flatMap]
    constructor
    · rintro ⟨⟨el, ⟨div, hdiv, hel⟩, h⟩, hs⟩
      exact ⟨hs, div, hdiv, el, hel, h⟩
    · rintro ⟨hs, div, hdiv, el, hel, h⟩
      exact ⟨⟨el, ⟨div, hdiv, hel⟩, h⟩, hs⟩
  have hP : ∀ s : String, s ∈ (extractNews doc).paragraphs ↔
      s ≠ "" ∧ ∃ div ∈ doc.querySelectorAllDiv, ∃ el ∈ div.descendants,
        (el.isHeadline = false ∧ el.isParagraph = true) ∧ jsTrim el.innerText = s := by
    intro s
    rw [extractNews_eq_flatMap]
    simp only [mem_filterBoolean, mem_newSet, mem_paragraphTexts, List.mem_flatMap]
    constructor
    · rintro ⟨⟨el, ⟨div, hdiv, hel⟩, h⟩, hs⟩
      exact ⟨hs, div, hdiv, el, hel, h⟩
    · rintro ⟨hs, div, hdiv, el, hel, h⟩
      exact ⟨⟨el, ⟨div, hdiv, hel⟩, h⟩, hs⟩
  refine ⟨?_, ?_, fun h => ((hH "").1 h).1 rfl, fun h => ((hP "").1 h).1 rfl, hH, hP, ?_⟩
  · rw [extractNews_eq_flatMap]
    exact (nodup_newSet _).filter _
  · rw [extractNews_eq_flatMap]
    exact (nodup_newSet _).filter _
  · rintro s (h | h)
    · obtain ⟨hs, _, _, el, _, _, rfl⟩ := (hH s).1 h
      exact not_whitespaceOnly_jsTrim _ hs
    · obtain ⟨hs, _, _, el, _, _, rfl⟩ := (hP s).1 h
      exact not_whitespaceOnly_jsTrim _ hs

/-- C2 as stated fails: on the page `<h1>A</h1><div><h1>B</h1><h1>A</h1></div>` the first
headline element carrying "A" precedes, in document order, the first one carrying "B", both
strings are returned, and yet "B" comes before "A" in `headlines`, because the `h1` outside
every `div` is never scanned. -/
theorem headlines_document_order_counterexample :
    headlineOutsideDivDocument.headlineTextsInDocumentOrder = ["A", "B", "A"] ∧
    List.indexOf "A" headlineOutsideDivDocument.headlineTextsInDocumentOrder <
      List.indexOf "B" headlineOutsideDivDocument.headlineTextsInDocumentOrder ∧
    (extractNews headlineOutsideDivDocument).headlines = ["B", "A"] ∧
    ¬ (List.indexOf "A" (extractNews headlineOutsideDivDocument).headlines <
      List.indexOf "B" (extractNews headlineOutsideDivDocument).headlines) := by
  decide

/-- C2 (amended): among the headline elements that lie inside at least one `div` (the only
ones the scan visits), `headlines` follows first-occurrence order in document order. For
non-empty strings `a` and `b`: `a` is returned exactly when such an element carries it, and
if the first such element carrying `a` precedes the first one carrying `b` (or none carries
`b`), then `a` is returned and comes before `b`; the converse holds too. Nested `div`s, which
make the scan visit an element several times, do not disturb this. -/
theorem headlines_first_occurrence_order (doc : Document) (a b : String)
    (ha : a ≠ "") (hb : b ≠ "") :
    doc.headlineTextsInsideDivs.Sublist doc.headlineTextsInDocumentOrder ∧
    (a ∈ (extractNews doc).headlines ↔ a ∈ doc.headlineTextsInsideDivs) ∧
    (List.indexOf a doc.headlineTextsInsideDivs < List.indexOf b doc.headlineTextsInsideDivs →
      a ∈ (extractNews doc).headlines ∧
      List.indexOf a (extractNews doc).headlines < List.indexOf b (extractNews doc).headlines) ∧
    (List.indexOf a (extractNews doc).headlines < List.indexOf b (extractNews doc).headlines →
      List.indexOf a doc.headlineTextsInsideDivs <
        List.indexOf b doc.headlineTextsInsideDivs) := by
  have hmem : a ∈ (extractNews doc).headlines ↔ a ∈ doc.headlineTextsInsideDivs := by
    rw [headlines_eq, mem_filterBoolean, mem_newSet]
    exact ⟨fun h => h.1, fun h => ⟨h, ha⟩⟩
  have hiff : List.indexOf a (extractNews doc).headlines <
      List.indexOf b (extractNews doc).headlines ↔
      List.indexOf a doc.headlineTextsInsideDivs <
        List.indexOf b doc.headlineTextsInsideDivs := by
    rw [headlines_eq]
    unfold filterBoolean
    rw [indexOf_filter_lt_iff _ _ a b (by simpa using ha) (by simpa using hb),
      indexOf_newSet_lt_iff]
  refine ⟨headlineTextsInsideDivs_sublist doc, hmem, fun h => ⟨?_, hiff.2 h⟩, hiff.1⟩
  rw [hmem]
  apply List.indexOf_lt_length.1
  exact lt_of_lt_of_le h List.indexOf_le_length

/-- The amended C2 at work on a page with nested `div`s, `<div><h1>A</h1><div><h1>B</h1></div>
<h1>C</h1></div>`: the scan of the inner `div` visits the headline "B" a second time, after
"C", and still "B" comes before "C" in the result, as it does inside the `div`s. -/
theorem headlines_first_occurrence_order_witness :
    ("B" : String) ≠ "" ∧ ("C" : String) ≠ "" ∧
    List.indexOf "B" nestedDivDocument.headlineTextsInsideDivs <
      List.indexOf "C" nestedDivDocument.headlineTextsInsideDivs ∧
    ("B" ∈ (extractNews nestedDivDocument).headlines ∧
      List.indexOf "B" (extractNews nestedDivDocument).headlines <
        List.indexOf "C" (extractNews nestedDivDocument).headlines) :=
  ⟨by decide, by decide, by decide,
    (headlines_first_occurrence_order nestedDivDocument "B" "C" (by decide) (by decide)).2.2.1
      (by decide)⟩

/-! ## Lemmas: numerals -/

theorem isDigit_digitChar_mod (n : Nat) : (Nat.digitChar (n % 10)).isDigit = true := by
  have h : n % 10 < 10 := Nat.mod_lt _ (by decide)
  generalize n % 10 = d at h
  interval_cases d <;> decide

theorem toDigitsCore_all_isDigit (fuel n : Nat) (ds : List Char)
    (h : ds.all Char.isDigit = true) :
    (Nat.toDigitsCore 10 fuel n ds).all Char.isDigit = true := by
  induction fuel generalizing n ds with
  | zero => simpa [Nat.toDigitsCore] using h
  | succ fuel ih =>
    have hcons : (Nat.digitChar (n % 10) :: ds).all Char.isDigit = true := by
      rw [List.all_cons, isDigit_digitChar_mod, h]; rfl
    simp only [Nat.toDigitsCore]
    split
    · exact hcons
    · exact ih _ _ hcons

theorem toDigitsCore_ne_nil (fuel n : Nat) (ds : List Char) (h : ds ≠ [] ∨ 0 < fuel) :
    Nat.toDigitsCore 10 fuel n ds ≠ [] := by
  induction fuel generalizing n ds with
  | zero =>
    rcases h with h | h
    · simpa [Nat.toDigitsCore] using h
    · exact absurd h (by decide)
  | succ fuel ih =>
    simp only [Nat.toDigitsCore]
    split
    · exact List.cons_ne_nil _ _
    · exact ih _ _ (Or.inl (List.cons_ne_nil _ _))

theorem repr_all_isDigit (n : Nat) : (Nat.repr n).data.all Char.isDigit = true := by
  show (Nat.toDigits 10 n).all Char.isDigit = true
  exact toDigitsCore_all_isDigit _ _ _ rfl

theorem repr_ne_nil (n : Nat) : (Nat.repr n).data ≠ [] := by
  show Nat.toDigits 10 n ≠ []
  exact toDigitsCore_ne_nil _ _ _ (Or.inr (Nat.succ_pos n))

/-- Digits with a point before the last two, after an optional sign, have two decimals. -/
theorem hasTwoDecimals_of_digits (sign : String) (m : List Char)
    (hsign : sign = "" ∨ sign = "-") (hm : m.all Char.isDigit = true) (hlen : 3 ≤ m.length) :
    hasTwoDecimals
      (sign ++ String.mk (m.take (m.length - 2) ++ '.' :: m.drop (m.length - 2))) = true := by
  obtain ⟨w, d1, d2, rfl, hw⟩ : ∃ w d1 d2, m = w ++ [d1, d2] ∧ w ≠ [] := by
    have h2 : (m.drop (m.length - 2)).length = 2 := by rw [List.length_drop]; omega
    obtain ⟨d1, d2, hd⟩ := List.length_eq_two.1 h2
    refine ⟨m.take (m.length - 2), d1, d2, ?_, ?_⟩
    · rw [← hd, List.take_append_drop]
    · intro h0
      have := congrArg List.length h0
      rw [List.length_take] at this
      simp at this; omega
  have hlenw : (w ++ [d1, d2]).length - 2 = w.length := by simp
  rw [hlenw, List.take_left, List.drop_left]
  rw [List.all_append] at hm
  simp only [Bool.and_eq_true, List.all_cons, List.all_nil, Bool.and_true] at hm
  obtain ⟨hwd, hd1, hd2⟩ := hm
  have hw0 : ∀ c ∈ w, c ≠ '-' := by
    intro c hc hcm
    have := (List.all_eq_true.1 hwd) c hc
    subst hcm
    exact absurd this (by decide)
  unfold hasTwoDecimals
  rcases hsign with rfl | rfl
  · have : ("" ++ String.mk (w ++ '.' :: [d1, d2])).data.reverse = d2 :: d1 :: '.' :: w.reverse := by
      simp [String.data_append]
    rw [this]
    simp only [List.reverse_reverse, hd1, hd2, Bool.true_and]
    cases w with
    | nil => exact absurd rfl hw
    | cons c cs =>
      have hc : c ≠ '-' := hw0 c (List.mem_cons_self _ _)
      split
      · rename_i heq
        simp only [List.cons.injEq] at heq
        exact absurd heq.1 hc
      · simpa using hwd
  · have : ("-" ++ String.mk (w ++ '.' :: [d1, d2])).data.reverse =
        d2 :: d1 :: '.' :: ('-' :: w).reverse := by
      simp [String.data_append]
    rw [this]
    simp only [List.reverse_reverse, hd1, hd2, Bool.true_and]
    cases w with
    | nil => exact absurd rfl hw
    | cons c cs => simpa using hwd

/-- The digits `toFixed(2)` cuts the point into: all decimal, at least three. -/
theorem padded_digits (n : Nat) :
    let m := (Nat.repr n).data
    let p := if m.length ≤ 2 then List.replicate (2 + 1 - m.length) '0' ++ m else m
    p.all Char.isDigit = true ∧ 3 ≤ p.length := by
  intro m p
  have hm : m.all Char.isDigit = true := repr_all_isDigit n
  by_cases h : m.length ≤ 2
  · have hp : p = List.replicate (2 + 1 - m.length) '0' ++ m := if_pos h
    rw [hp]
    refine ⟨?_, ?_⟩
    · rw [List.all_append, hm, Bool.and_true, List.all_eq_true]
      intro c hc
      rw [List.eq_of_mem_replicate hc]
      decide
    · rw [List.length_append, List.length_replicate]; omega
  · have hp : p = m := if_neg h
    rw [hp]
    exact ⟨hm, by omega⟩

theorem toFixed_two_decimals (fmt : ℚ → String) (x : ℚ) (h1 : -(10 : ℚ) ^ 21 < x)
    (h2 : x < (10 : ℚ) ^ 21) : hasTwoDecimals (toFixed fmt (.finite x) 2) = true := by
  unfold toFixed
  simp only
  have hbig : ¬ ((10 : ℚ) ^ 21 ≤ if x < 0 then -x else x) := by
    split <;> linarith
  rw [if_neg hbig, if_neg (by decide : ¬ (2 = 0))]
  obtain ⟨hd, hl⟩ := padded_digits (Rat.floor ((if x < 0 then -x else x) * 10 ^ 2 + 1 / 2)).toNat
  apply hasTwoDecimals_of_digits _ _ _ hd hl
  by_cases hx : x < 0
  · right; rw [if_pos hx]
  · left; rw [if_neg hx]

/-! ## Lemmas: the holes of the result view -/

/-- When the four holes evaluate, line 90 writes the result view filled with them to the
panel and logs the write. -/
theorem showDetectionResult_panel (fmt : ℚ → String) (result : JSValue) (page : Page)
    (ts vd ci tn : String)
    (htn : trustedNewsValue fmt result = .ok tn) (hts : trustScoreText fmt result = .ok ts)
    (hvd : verdictText fmt result = .ok vd)
    (hci : correctInformationHtml fmt result = .ok ci) :
    (showDetectionResult fmt result false page).1.panel = some (resultView ts vd ci tn) ∧
    (showDetectionResult fmt result false page).1.log =
      page.log ++ (if page.panel.isNone then [Action.createPanel] else []) ++
        [.setPanelHtml (resultView ts vd ci tn)] := by
  have hr : resultHtml fmt result = .ok (resultView ts vd ci tn) := by
    simp [resultHtml, resultView, htn, hts, hvd, hci, bind, Except.bind, pure, Except.pure]
  unfold showDetectionResult
  cases h : page.panel <;> simp [hr]

theorem verdictText_of_record (fmt : ℚ → String) (props : List (String × JSValue)) :
    (props.lookup "verdict" = none →
      (props.lookup "is_fake" = some (.boolean true) →
        verdictText fmt (.object props) = .ok "Fake") ∧
      (props.lookup "is_fake" = some (.boolean false) →
        verdictText fmt (.object props) = .ok "Trustworthy") ∧
      ((∀ b : Bool, props.lookup "is_fake" ≠ some (.boolean b)) →
        verdictText fmt (.object props) = .ok "Unknown")) ∧
    (∀ s : String, props.lookup "verdict" = some (.string s) → s ≠ "" →
      verdictText fmt (.object props) = .ok s) := by
  refine ⟨fun hv => ⟨?_, ?_, ?_⟩, ?_⟩
  · intro hf
    simp [verdictText, getProperty, hv, hf, toBoolean, bind, Except.bind, pure, Except.pure]
  · intro hf
    simp [verdictText, getProperty, hv, hf, toBoolean, bind, Except.bind, pure, Except.pure]
  · intro hf
    simp only [verdictText, getProperty, hv, toBoolean, bind, Except.bind, pure, Except.pure,
      Option.getD_none]
    cases hl : props.lookup "is_fake" with
    | none => simp
    | some v =>
      cases v with
      | boolean b => exact absurd hl (hf b)
      | _ => simp
  · intro s hv hs
    simp [verdictText, getProperty, hv, hs, toBoolean, toStringJS, bind, Except.bind]

theorem trustedNewsValue_of_record (fmt : ℚ → String) (props : List (String × JSValue)) :
    (∀ s : String, props.lookup "trusted_news" = some (.string s) →
      trustedNewsValue fmt (.object props) = .ok s) ∧
    (props.lookup "trusted_news" = some .null ∨ props.lookup "trusted_news" = none →
      trustedNewsValue fmt (.object props) = .ok "N/A") ∧
    (∀ v : JSValue, props.lookup "trusted_news" = some v →
      (∀ s : String, v ≠ .string s) → v ≠ .null → v ≠ .undefined →
      trustedNewsValue fmt (.object props) = toStringJS fmt v) := by
  refine ⟨?_, ?_, ?_⟩
  · intro s h
    simp only [trustedNewsValue, getProperty, h, bind, Except.bind, Option.getD_some]
    split
    · rfl
    · simp [toStringJS]
  · rintro (h | h) <;>
      simp [trustedNewsValue, getProperty, h, bind, Except.bind, pure, Except.pure]
  · intro v h hs hn hu
    cases v with
    | string s => exact absurd rfl (hs s)
    | null => exact absurd rfl hn
    | undefined => exact absurd rfl hu
    | _ => simp only [trustedNewsValue, getProperty, h, bind, Except.bind, Option.getD_some]

theorem toFixed_double_0_8567 (fmt : ℚ → String) :
    toFixed fmt (.finite double_0_8567) 2 = "0.86" := by
  have hfloor : Rat.floor (double_0_8567 * 10 ^ 2 + 1 / 2) = 86 := by
    show ⌊double_0_8567 * 10 ^ 2 + 1 / 2⌋ = 86
    rw [Int.floor_eq_iff]
    unfold double_0_8567
    constructor <;> norm_num
  have hpos : ¬ double_0_8567 < 0 := by unfold double_0_8567; norm_num
  have hsmall : ¬ ((10 : ℚ) ^ 21 ≤ double_0_8567) := by unfold double_0_8567; norm_num
  unfold toFixed
  simp only [hpos, if_false, hsmall, hfloor]
  decide

theorem toFixed_ten_pow_21 : toFixed (fun _ => "1e+21") (.finite (10 ^ 21)) 2 = "1e+21" := by
  unfold toFixed
  have hpos : ¬ ((10 : ℚ) ^ 21 < 0) := by norm_num
  simp only [hpos, if_false, le_refl, if_true]
  decide

theorem trustScoreText_of_record (fmt : ℚ → String) (props : List (String × JSValue)) :
    (∀ n : JSNumber, props.lookup "trust_score" = some (.number n) →
      trustScoreText fmt (.object props) = .ok (toFixed fmt n 2)) ∧
    (∀ v : JSValue, props.lookup "trust_score" = some v → (∀ n : JSNumber, v ≠ .number n) →
      trustScoreText fmt (.object props) = toStringJS fmt v) ∧
    (props.lookup "trust_score" = none →
      trustScoreText fmt (.object props) = .ok "undefined") := by
  refine ⟨?_, ?_, ?_⟩
  · intro n h
    simp [trustScoreText, getProperty, h, bind, Except.bind, pure, Except.pure]
  · intro v h hn
    cases v with
    | number n => exact absurd rfl (hn n)
    | _ => simp only [trustScoreText, getProperty, h, bind, Except.bind, Option.getD_some]
  · intro h
    simp [trustScoreText, getProperty, h, bind, Except.bind, toStringJS]

/-! ## Presentation panel: claims -/

/-- C3 as stated fails, in two ways. In the record with `verdict: ""` and `is_fake: true` a
verdict string is present, yet the verdict written to the panel is the derived "Fake", not
that string. And for the record `\x7bis_fake: true, trusted_news: \x7btoString: 1\x7d\x7d`,
which has no `verdict`, no verdict is rendered at all: `String(result.trusted_news)` throws
and the panel is left empty. -/
theorem verdict_string_shown_counterexample :
    emptyVerdictRecord.lookup "verdict" = some (.string "") ∧
    (showDetectionResult (fun _ => "") (.object emptyVerdictRecord) false Page.initial).1.panel =
      some (resultView "undefined" "Fake" "" "N/A") ∧
    resultView "undefined" "Fake" "" "N/A" ≠ resultView "undefined" "" "" "N/A" ∧
    List.lookup "verdict" [("is_fake", JSValue.boolean true), ("trusted_news", unprintableValue)] =
      none ∧
    showDetectionResult (fun _ => "")
      (.object [("is_fake", .boolean true), ("trusted_news", unprintableValue)]) false
      Page.initial = (emptyPanelPage, some cannotConvertError) :=
  ⟨rfl, rfl, by decide, rfl, rfl⟩

/-- C3 (amended): for a result record whose other interpolated fields (`trust_score`,
`correct_information`, `trusted_news`) convert to text, `showDetectionResult` (not loading)
writes the result view to the panel, and the verdict in it is: derived from `is_fake` when
the `verdict` field is absent ("Fake" for `true`, "Trustworthy" for `false`, "Unknown" when
`is_fake` is missing or not a boolean); the `verdict` itself when it is a non-empty
string. -/
theorem showDetectionResult_verdict (fmt : ℚ → String) (props : List (String × JSValue))
    (page : Page) (ts ci tn : String)
    (hts : trustScoreText fmt (.object props) = .ok ts)
    (hci : correctInformationHtml fmt (.object props) = .ok ci)
    (htn : trustedNewsValue fmt (.object props) = .ok tn) :
    (props.lookup "verdict" = none →
      (props.lookup "is_fake" = some (.boolean true) →
        (showDetectionResult fmt (.object props) false page).1.panel =
          some (resultView ts "Fake" ci tn)) ∧
      (props.lookup "is_fake" = some (.boolean false) →
        (showDetectionResult fmt (.object props) false page).1.panel =
          some (resultView ts "Trustworthy" ci tn)) ∧
      ((∀ b : Bool, props.lookup "is_fake" ≠ some (.boolean b)) →
        (showDetectionResult fmt (.object props) false page).1.panel =
          some (resultView ts "Unknown" ci tn))) ∧
    (∀ s : String, props.lookup "verdict" = some (.string s) → s ≠ "" →
      (showDetectionResult fmt (.object props) false page).1.panel =
        some (resultView ts s ci tn)) := by
  obtain ⟨habsent, hpresent⟩ := verdictText_of_record fmt props
  refine ⟨fun hv => ⟨fun hf => ?_, fun hf => ?_, fun hf => ?_⟩, fun s hv hs => ?_⟩
  · exact (showDetectionResult_panel fmt _ page ts _ ci tn htn hts ((habsent hv).1 hf) hci).1
  · exact (showDetectionResult_panel fmt _ page ts _ ci tn htn hts ((habsent hv).2.1 hf) hci).1
  · exact (showDetectionResult_panel fmt _ page ts _ ci tn htn hts ((habsent hv).2.2 hf) hci).1
  · exact (showDetectionResult_panel fmt _ page ts _ ci tn htn hts (hpresent s hv hs) hci).1

/-- The amended C3 on the records `\x7bis_fake: true\x7d`, `\x7bis_fake: false\x7d`, `\x7b\x7d`
and `\x7bverdict: "Misleading", is_fake: true\x7d`, rendered on a fresh page. -/
theorem showDetectionResult_verdict_witness :
    (showDetectionResult (fun _ => "") (.object [("is_fake", .boolean true)]) false
      Page.initial).1.panel = some (resultView "undefined" "Fake" "" "N/A") ∧
    (showDetectionResult (fun _ => "") (.object [("is_fake", .boolean false)]) false
      Page.initial).1.panel = some (resultView "undefined" "Trustworthy" "" "N/A") ∧
    (showDetectionResult (fun _ => "") (.object []) false Page.initial).1.panel =
      some (resultView "undefined" "Unknown" "" "N/A") ∧
    (showDetectionResult (fun _ => "")
      (.object [("verdict", .string "Misleading"), ("is_fake", .boolean true)]) false
      Page.initial).1.panel = some (resultView "undefined" "Misleading" "" "N/A") :=
  ⟨((showDetectionResult_verdict _ [("is_fake", .boolean true)] Page.initial
      "undefined" "" "N/A" rfl rfl rfl).1 rfl).1 rfl,
   ((showDetectionResult_verdict _ [("is_fake", .boolean false)] Page.initial
      "undefined" "" "N/A" rfl rfl rfl).1 rfl).2.1 rfl,
   ((showDetectionResult_verdict _ [] Page.initial
      "undefined" "" "N/A" rfl rfl rfl).1 rfl).2.2 (by intro b h; cases h),
   (showDetectionResult_verdict _
      [("verdict", .string "Misleading"), ("is_fake", .boolean true)] Page.initial
      "undefined" "" "N/A" rfl rfl rfl).2 "Misleading" rfl (by decide)⟩

/-- C4 as stated fails: a `trusted_news` of another type need not have a string
representation, and a record need not render. For `\x7btrusted_news: \x7btoString: 1\x7d\x7d`
the call `String(result.trusted_news)` throws and nothing is written to the panel; for
`\x7btrusted_news: "Reuters", trust_score: \x7btoString: 1\x7d\x7d` the trust-score hole throws
and "Reuters" is not rendered either. -/
theorem trusted_news_string_form_counterexample :
    toStringJS (fun _ => "") unprintableValue = .error cannotConvertError ∧
    showDetectionResult (fun _ => "") (.object [("trusted_news", unprintableValue)]) false
      Page.initial = (emptyPanelPage, some cannotConvertError) ∧
    showDetectionResult (fun _ => "")
      (.object [("trusted_news", .string "Reuters"), ("trust_score", unprintableValue)]) false
      Page.initial = (emptyPanelPage, some cannotConvertError) :=
  ⟨rfl, rfl, rfl⟩

/-- C4 (amended): for a result record whose other interpolated fields (`trust_score`,
`verdict`, `correct_information`) convert to text, `showDetectionResult` (not loading)
writes the result view to the panel, and the trusted-news value in it is: the string itself
when `trusted_news` is a non-empty string (white space only included); "N/A" when it is
`null` or absent; and the string representation `String(value)` for every other value that
has one. -/
theorem showDetectionResult_trusted_news (fmt : ℚ → String)
    (props : List (String × JSValue)) (page : Page) (ts vd ci : String)
    (hts : trustScoreText fmt (.object props) = .ok ts)
    (hvd : verdictText fmt (.object props) = .ok vd)
    (hci : correctInformationHtml fmt (.object props) = .ok ci) :
    (∀ s : String, props.lookup "trusted_news" = some (.string s) → s ≠ "" →
      (showDetectionResult fmt (.object props) false page).1.panel =
        some (resultView ts vd ci s)) ∧
    (props.lookup "trusted_news" = some .null ∨ props.lookup "trusted_news" = none →
      (showDetectionResult fmt (.object props) false page).1.panel =
        some (resultView ts vd ci "N/A")) ∧
    (∀ (v : JSValue) (s : String), props.lookup "trusted_news" = some v →
      (∀ s' : String, v ≠ .string s') → v ≠ .null → v ≠ .undefined →
      toStringJS fmt v = .ok s →
      (showDetectionResult fmt (.object props) false page).1.panel =
        some (resultView ts vd ci s)) := by
  obtain ⟨hstr, hna, hother⟩ := trustedNewsValue_of_record fmt props
  refine ⟨fun s h _ => ?_, fun h => ?_, fun v s h h1 h2 h3 h4 => ?_⟩
  · exact (showDetectionResult_panel fmt _ page ts vd ci s (hstr s h) hts hvd hci).1
  · exact (showDetectionResult_panel fmt _ page ts vd ci "N/A" (hna h) hts hvd hci).1
  · exact (showDetectionResult_panel fmt _ page ts vd ci s
      ((hother v h h1 h2 h3).trans h4) hts hvd hci).1

/-- The amended C4 on `trusted_news: "Reuters"`, `trusted_news: " "`, `trusted_news: null`,
no `trusted_news`, `trusted_news: true` and `trusted_news: \x7b\x7d`, rendered on a fresh
page. -/
theorem showDetectionResult_trusted_news_witness :
    (showDetectionResult (fun _ => "") (.object [("trusted_news", .string "Reuters")]) false
      Page.initial).1.panel = some (resultView "undefined" "Unknown" "" "Reuters") ∧
    (showDetectionResult (fun _ => "") (.object [("trusted_news", .string " ")]) false
      Page.initial).1.panel = some (resultView "undefined" "Unknown" "" " ") ∧
    (showDetectionResult (fun _ => "") (.object [("trusted_news", .null)]) false
      Page.initial).1.panel = some (resultView "undefined" "Unknown" "" "N/A") ∧
    (showDetectionResult (fun _ => "") (.object []) false Page.initial).1.panel =
      some (resultView "undefined" "Unknown" "" "N/A") ∧
    (showDetectionResult (fun _ => "") (.object [("trusted_news", .boolean true)]) false
      Page.initial).1.panel = some (resultView "undefined" "Unknown" "" "true") ∧
    (showDetectionResult (fun _ => "") (.object [("trusted_news", .object [])]) false
      Page.initial).1.panel =
      some (resultView "undefined" "Unknown" "" "[object Object]") :=
  ⟨(showDetectionResult_trusted_news _ [("trusted_news", .string "Reuters")] Page.initial
      "undefined" "Unknown" "" rfl rfl rfl).1 "Reuters" rfl (by decide),
   (showDetectionResult_trusted_news _ [("trusted_news", .string " ")] Page.initial
      "undefined" "Unknown" "" rfl rfl rfl).1 " " rfl (by decide),
   (showDetectionResult_trusted_news _ [("trusted_news", .null)] Page.initial
      "undefined" "Unknown" "" rfl rfl rfl).2.1 (Or.inl rfl),
   (showDetectionResult_trusted_news _ [] Page.initial
      "undefined" "Unknown" "" rfl rfl rfl).2.1 (Or.inr rfl),
   (showDetectionResult_trusted_news _ [("trusted_news", .boolean true)] Page.initial
      "undefined" "Unknown" "" rfl rfl rfl).2.2 (.boolean true) "true" rfl
      (by intro s h; cases h) (by intro h; cases h) (by intro h; cases h) rfl,
   (showDetectionResult_trusted_news _ [("trusted_news", .object [])] Page.initial
      "undefined" "Unknown" "" rfl rfl rfl).2.2 (.object []) "[object Object]" rfl
      (by intro s h; cases h) (by intro h; cases h) (by intro h; cases h) rfl⟩

/-- C5 as stated fails, in three ways. A numeric `trust_score` need not render with two
decimal places: the body `\x7b"trust_score": 1e999\x7d` parses to `Infinity`, which
`toFixed(2)` prints as "Infinity", and `\x7b"trust_score": 1e21\x7d` parses to `10^21`, which
`toFixed(2)` hands to `Number::toString`, whose output is "1e+21". A `trust_score` that is
not a number need not be displayed: for `\x7btrust_score: \x7btoString: 1\x7d\x7d` the
template throws and nothing is written to the panel. And a numeric `trust_score` is not
rendered when another field throws, as in
`\x7btrust_score: 0.8567, trusted_news: \x7btoString: 1\x7d\x7d`. -/
theorem trust_score_two_decimals_counterexample :
    (showDetectionResult (fun _ => "1e+21") (.object [("trust_score", .number .posInfinity)])
      false Page.initial).1.panel = some (resultView "Infinity" "Unknown" "" "N/A") ∧
    hasTwoDecimals "Infinity" = false ∧
    (showDetectionResult (fun _ => "1e+21")
      (.object [("trust_score", .number (.finite (10 ^ 21)))]) false Page.initial).1.panel =
      some (resultView "1e+21" "Unknown" "" "N/A") ∧
    hasTwoDecimals "1e+21" = false ∧
    showDetectionResult (fun _ => "") (.object [("trust_score", unprintableValue)]) false
      Page.initial = (emptyPanelPage, some cannotConvertError) ∧
    showDetectionResult (fun _ => "")
      (.object [("trust_score", .number (.finite double_0_8567)),
        ("trusted_news", unprintableValue)]) false
      Page.initial = (emptyPanelPage, some cannotConvertError) := by
  refine ⟨rfl, by decide, ?_, by decide, rfl, rfl⟩
  refine (showDetectionResult_panel (fun _ => "1e+21")
    (.object [("trust_score", .number (.finite (10 ^ 21)))]) Page.initial
    "1e+21" "Unknown" "" "N/A" rfl ?_ rfl rfl).1
  simp [trustScoreText, getProperty, bind, Except.bind, pure, Except.pure, toFixed_ten_pow_21]

/-- C5 (amended): for a result record whose other interpolated fields (`verdict`,
`correct_information`, `trusted_news`) convert to text, `showDetectionResult` (not loading)
writes the result view to the panel, and the score in it: has exactly two decimal places
when `trust_score` is a finite number of magnitude below `10^21` (the double `0.8567` gives
"0.86"); is the value as received, unmodified, when `trust_score` is a string ("high" gives
"high"), and the string form of the value for every other non-number that has one; and is
the placeholder text "undefined" when `trust_score` is absent. -/
theorem showDetectionResult_trust_score (fmt : ℚ → String)
    (props : List (String × JSValue)) (page : Page) (vd ci tn : String)
    (hvd : verdictText fmt (.object props) = .ok vd)
    (hci : correctInformationHtml fmt (.object props) = .ok ci)
    (htn : trustedNewsValue fmt (.object props) = .ok tn) :
    (∀ x : ℚ, props.lookup "trust_score" = some (.number (.finite x)) →
      -(10 : ℚ) ^ 21 < x → x < (10 : ℚ) ^ 21 →
      (showDetectionResult fmt (.object props) false page).1.panel =
        some (resultView (toFixed fmt (.finite x) 2) vd ci tn) ∧
      hasTwoDecimals (toFixed fmt (.finite x) 2) = true) ∧
    (props.lookup "trust_score" = some (.number (.finite double_0_8567)) →
      (showDetectionResult fmt (.object props) false page).1.panel =
        some (resultView "0.86" vd ci tn)) ∧
    (∀ s : String, props.lookup "trust_score" = some (.string s) →
      (showDetectionResult fmt (.object props) false page).1.panel =
        some (resultView s vd ci tn)) ∧
    (∀ (v : JSValue) (s : String), props.lookup "trust_score" = some v →
      (∀ n : JSNumber, v ≠ .number n) → toStringJS fmt v = .ok s →
      (showDetectionResult fmt (.object props) false page).1.panel =
        some (resultView s vd ci tn)) ∧
    (props.lookup "trust_score" = none →
      (showDetectionResult fmt (.object props) false page).1.panel =
        some (resultView "undefined" vd ci tn)) := by
  obtain ⟨hnum, hother, habsent⟩ := trustScoreText_of_record fmt props
  refine ⟨fun x h h1 h2 => ⟨?_, toFixed_two_decimals fmt x h1 h2⟩, fun h => ?_, fun s h => ?_,
    fun v s h hn hs => ?_, fun h => ?_⟩
  · exact (showDetectionResult_panel fmt _ page _ vd ci tn htn (hnum _ h) hvd hci).1
  · have := (showDetectionResult_panel fmt _ page _ vd ci tn htn (hnum _ h) hvd hci).1
    rw [toFixed_double_0_8567] at this
    exact this
  · exact (showDetectionResult_panel fmt _ page s vd ci tn htn
      ((hother _ h (by intro n hn; cases hn)).trans rfl) hvd hci).1
  · exact (showDetectionResult_panel fmt _ page s vd ci tn htn
      ((hother v h hn).trans hs) hvd hci).1
  · exact (showDetectionResult_panel fmt _ page _ vd ci tn htn (habsent h) hvd hci).1

/-- The amended C5 on `trust_score: 0.8567`, `trust_score: "high"`, `trust_score: null` and
no `trust_score`, rendered on a fresh page. -/
theorem showDetectionResult_trust_score_witness :
    (showDetectionResult (fun _ => "")
      (.object [("trust_score", .number (.finite double_0_8567))]) false
      Page.initial).1.panel = some (resultView "0.86" "Unknown" "" "N/A") ∧
    hasTwoDecimals (toFixed (fun _ => "") (.finite double_0_8567) 2) = true ∧
    (showDetectionResult (fun _ => "") (.object [("trust_score", .string "high")]) false
      Page.initial).1.panel = some (resultView "high" "Unknown" "" "N/A") ∧
    (showDetectionResult (fun _ => "") (.object [("trust_score", .null)]) false
      Page.initial).1.panel = some (resultView "null" "Unknown" "" "N/A") ∧
    (showDetectionResult (fun _ => "") (.object []) false Page.initial).1.panel =
      some (resultView "undefined" "Unknown" "" "N/A") :=
  ⟨(showDetectionResult_trust_score _ [("trust_score", .number (.finite double_0_8567))]
      Page.initial "Unknown" "" "N/A" rfl rfl rfl).2.1 rfl,
   ((showDetectionResult_trust_score (fun _ => "")
      [("trust_score", .number (.finite double_0_8567))]
      Page.initial "Unknown" "" "N/A" rfl rfl rfl).1 double_0_8567 rfl
      (by unfold double_0_8567; norm_num) (by unfold double_0_8567; norm_num)).2,
   (showDetectionResult_trust_score _ [("trust_score", .string "high")]
      Page.initial "Unknown" "" "N/A" rfl rfl rfl).2.2.1 "high" rfl,
   (showDetectionResult_trust_score _ [("trust_score", .null)]
      Page.initial "Unknown" "" "N/A" rfl rfl rfl).2.2.2.1 .null "null" rfl
      (by intro n h; cases h) rfl,
   (showDetectionResult_trust_score _ []
      Page.initial "Unknown" "" "N/A" rfl rfl rfl).2.2.2.2 rfl⟩

/-! ## Request flows: claims -/

theorem requestsOf_append (a b : List Action) :
    requestsOf (a ++ b) = requestsOf a ++ requestsOf b := by
  induction a with
  | nil => rfl
  | cons x a ih => cases x <;> simp [requestsOf, ih]

theorem alertsOf_append (a b : List Action) :
    alertsOf (a ++ b) = alertsOf a ++ alertsOf b := by
  induction a with
  | nil => rfl
  | cons x a ih => cases x <;> simp [alertsOf, ih]

/-- The loading call: the panel holds the loading view afterwards, and the log has grown by
the creation of the panel, if it was missing, and by the write of the loading view. -/
theorem showDetectionResult_loading (fmt : ℚ → String) (result : JSValue) (page : Page) :
    (showDetectionResult fmt result true page).1 =
      { popupDisplay := page.popupDisplay, panel := some loadingHtml
        log := page.log ++ (if page.panel.isNone then [Action.createPanel] else []) ++
          [.setPanelHtml loadingHtml] } := by
  unfold showDetectionResult
  cases h : page.panel <;> simp

/-- The result call on a page whose panel exists. -/
theorem showDetectionResult_result (fmt : ℚ → String) (result : JSValue) (page : Page)
    (html : String) (h : page.panel = some html) :
    showDetectionResult fmt result false page =
      match resultHtml fmt result with
      | .error e => (page, some e)
      | .ok html => ({ page with panel := some html, log := page.log ++ [.setPanelHtml html] },
          none) := by
  unfold showDetectionResult
  rw [h]
  rfl

/-- The shape of the log of `sendToBackend`: the loading view is written, then the request
is issued, then the outcome is handled without any further request. -/
theorem sendToBackend_log (fmt : ℚ → String) (data : NewsData) (outcome : FetchOutcome)
    (page : Page) :
    ∃ rest, (sendToBackend fmt data outcome page).log =
      page.log ++ (if page.panel.isNone then [Action.createPanel] else []) ++
        [.setPanelHtml loadingHtml, .fetch (pipelineRequest data)] ++ rest ∧
      requestsOf rest = [] := by
  unfold sendToBackend
  simp only [showDetectionResult_loading]
  cases outcome with
  | rejected message =>
    exact ⟨[.consoleError "❌ Failed to send data:" message,
      .alert ("Error checking news authenticity: " ++ message)],
      by simp [logAndAlertError, pipelineRequest], rfl⟩
  | response status json =>
    cases json with
    | error message =>
      exact ⟨[.consoleError "❌ Failed to send data:" message,
        .alert ("Error checking news authenticity: " ++ message)],
        by simp [logAndAlertError, pipelineRequest], rfl⟩
    | ok result =>
      simp only
      rw [showDetectionResult_result fmt result _ loadingHtml rfl]
      cases resultHtml fmt result with
      | error e =>
        exact ⟨[.consoleError "❌ Failed to send data:" e.message,
          .alert ("Error checking news authenticity: " ++ e.message)],
          by simp [logAndAlertError, pipelineRequest], rfl⟩
      | ok html => exact ⟨[.setPanelHtml html], by simp [pipelineRequest], rfl⟩

/-- C6 as stated fails: on a page without headlines and paragraphs the click issues one
request, and its body carries the labels with their emoji,
`\x7b"text":"📰 Headline:\n\n\n📄 Description:\n"\x7d`, which is not the serialisation of
`\x7btext: "Headline:\n\n\nDescription:\n"\x7d`. -/
theorem empty_page_request_body_counterexample :
    requestsOf
      (buttonClick (fun _ => "") emptyDocument (.response 200 (.ok (.object [])))
        Page.initial).log =
      [{ url := "http://127.0.0.1:8000/run_rag_pipeline/", method := "POST"
         contentType := "application/json"
         body := "\x7b\"text\":\"📰 Headline:\\n\\n\\n📄 Description:\\n\"\x7d" }] ∧
    "\x7b\"text\":\"📰 Headline:\\n\\n\\n📄 Description:\\n\"\x7d" ≠
      jsonStringifyText "Headline:\n\n\nDescription:\n" := by
  decide

/-- C6 (amended): a click on the icon issues exactly one request, whatever the page holds;
its body is the serialisation of the text "📰 Headline:", a line break, the headlines joined
by " | ", two line breaks, "📄 Description:", a line break, the paragraphs joined by a
space. When `extractNews` finds no headline and no paragraph the request is still issued and
its body is `\x7b"text":"📰 Headline:\n\n\n📄 Description:\n"\x7d`. -/
theorem buttonClick_request (fmt : ℚ → String) (doc : Document) (outcome : FetchOutcome)
    (page : Page) :
    requestsOf (buttonClick fmt doc outcome page).log =
      requestsOf page.log ++
        [{ url := "http://127.0.0.1:8000/run_rag_pipeline/", method := "POST"
           contentType := "application/json"
           body := jsonStringifyText
             ("📰 Headline:\n" ++ jsJoin " | " (extractNews doc).headlines ++
               "\n\n📄 Description:\n" ++ jsJoin " " (extractNews doc).paragraphs) }] ∧
    ((extractNews doc).headlines = [] → (extractNews doc).paragraphs = [] →
      requestsOf (buttonClick fmt doc outcome page).log =
        requestsOf page.log ++
          [{ url := "http://127.0.0.1:8000/run_rag_pipeline/", method := "POST"
             contentType := "application/json"
             body := "\x7b\"text\":\"📰 Headline:\\n\\n\\n📄 Description:\\n\"\x7d" }]) := by
  have key : requestsOf (buttonClick fmt doc outcome page).log =
      requestsOf page.log ++
        [{ url := "http://127.0.0.1:8000/run_rag_pipeline/", method := "POST"
           contentType := "application/json"
           body := jsonStringifyText
             ("📰 Headline:\n" ++ jsJoin " | " (extractNews doc).headlines ++
               "\n\n📄 Description:\n" ++ jsJoin " " (extractNews doc).paragraphs) }] := by
    unfold buttonClick
    simp only
    obtain ⟨rest, hlog, hrest⟩ := sendToBackend_log fmt
      { headline := jsJoin " | " (extractNews doc).headlines
        description := jsJoin " " (extractNews doc).paragraphs } outcome
      (showDetectionResult fmt (.object []) true { page with popupDisplay := "none" }).1
    rw [hlog, showDetectionResult_loading]
    simp only [requestsOf_append, hrest, List.append_nil]
    cases page.panel <;> simp [requestsOf, pipelineRequest, fullText, RAG_PIPELINE_URL]
  refine ⟨key, fun hh hp => ?_⟩
  rw [key, hh, hp]
  rfl

/-- The amended C6 on a page without any `div`. -/
theorem buttonClick_request_witness :
    requestsOf (buttonClick (fun _ => "") emptyDocument (.rejected "Failed to fetch")
      Page.initial).log =
      requestsOf Page.initial.log ++
        [{ url := "http://127.0.0.1:8000/run_rag_pipeline/", method := "POST"
           contentType := "application/json"
           body := "\x7b\"text\":\"📰 Headline:\\n\\n\\n📄 Description:\\n\"\x7d" }] :=
  (buttonClick_request (fun _ => "") emptyDocument (.rejected "Failed to fetch")
    Page.initial).2 (by decide) (by decide)

/-- The shape of the log of `checkNewsAuthenticity`: the request comes first. -/
theorem checkNewsAuthenticity_log (fmt : ℚ → String) (newsText : String)
    (outcome : FetchOutcome) (page : Page) :
    ∃ rest, (checkNewsAuthenticity fmt newsText outcome page).log =
      page.log ++ .fetch (analyzeRequest newsText) :: rest := by
  unfold checkNewsAuthenticity
  cases outcome with
  | rejected message => exact ⟨_, by simp [alertError, analyzeRequest]; rfl⟩
  | response status json =>
    simp only
    split
    · exact ⟨_, by simp [alertError, analyzeRequest]; rfl⟩
    · cases json with
      | error message => exact ⟨_, by simp [alertError, analyzeRequest]; rfl⟩
      | ok result =>
        simp only [showDetectionResult]
        cases page.panel <;> cases resultHtml fmt result <;>
          exact ⟨_, by simp [alertError, analyzeRequest]; rfl⟩

theorem mouseUp_long_selection (fmt : ℚ → String) (outcome : FetchOutcome) (page : Page) :
    mouseUp fmt "Scientists discover water on Mars" true outcome page =
      checkNewsAuthenticity fmt "Scientists discover water on Mars" outcome page := by
  unfold mouseUp
  have h1 : jsTrim "Scientists discover water on Mars" = "Scientists discover water on Mars" := by
    decide
  have h2 : utf16Length "Scientists discover water on Mars" > 20 := by decide
  simp only [h1, if_pos h2, if_true]

/-- C7, what the code does: `sendToBackend` writes the loading view and then issues its
request, so the panel holds the loading view when the request goes out; in
`checkNewsAuthenticity` the request is the first action, so the panel holds whatever it held
before. On a fresh page a confirmed selection of 33 characters issues its request while the
panel is still missing, and a failure leaves it so. -/
theorem loading_before_request (fmt : ℚ → String) (data : NewsData) (newsText : String)
    (outcome : FetchOutcome) (page : Page) :
    panelAtFirstFetch page.panel
      (sendToBackend fmt data outcome { page with log := [] }).log = some (some loadingHtml) ∧
    panelAtFirstFetch page.panel
      (checkNewsAuthenticity fmt newsText outcome { page with log := [] }).log =
        some page.panel ∧
    panelAtFirstFetch none
      (mouseUp fmt "Scientists discover water on Mars" true outcome Page.initial).log =
        some none ∧
    (mouseUp fmt "Scientists discover water on Mars" true (.rejected "Failed to fetch")
      Page.initial).panelState = .hidden := by
  refine ⟨?_, ?_, ?_, ?_⟩
  · obtain ⟨rest, h, _⟩ := sendToBackend_log fmt data outcome { page with log := [] }
    rw [h]
    cases page.panel <;> rfl
  · obtain ⟨rest, h⟩ := checkNewsAuthenticity_log fmt newsText outcome { page with log := [] }
    rw [h]
    rfl
  · rw [mouseUp_long_selection]
    obtain ⟨rest, h⟩ :=
      checkNewsAuthenticity_log fmt "Scientists discover water on Mars" outcome Page.initial
    rw [h]
    rfl
  · rw [mouseUp_long_selection]
    rfl

/-- C8, what the code does: `sendToBackend` never looks at the status of the response. A
`404` answer with the JSON body `\x7b"detail": "Not Found"\x7d` is rendered as a
result (verdict "Unknown") and no alert is shown, while `checkNewsAuthenticity` answers the
same response with an alert and leaves the panel alone. -/
theorem sendToBackend_ignores_status (fmt : ℚ → String) (data : NewsData) (newsText : String)
    (status : Nat) (json : Except String JSValue) (page : Page) :
    sendToBackend fmt data (.response status json) page =
      sendToBackend fmt data (.response 200 json) page ∧
    (sendToBackend fmt data (.response 404 (.ok notFoundBody)) Page.initial).panelState =
      .showing unknownResultHtml ∧
    alertsOf (sendToBackend fmt data (.response 404 (.ok notFoundBody)) Page.initial).log =
      [] ∧
    (checkNewsAuthenticity fmt newsText (.response 404 (.ok notFoundBody))
      Page.initial).panelState = .hidden ∧
    alertsOf (checkNewsAuthenticity fmt newsText (.response 404 (.ok notFoundBody))
      Page.initial).log = ["Error checking news authenticity: Network response was not ok"] := by
  refine ⟨rfl, ?_, rfl, rfl, rfl⟩
  have h : (sendToBackend fmt data (.response 404 (.ok notFoundBody)) Page.initial).panel =
      some unknownResultHtml := rfl
  unfold Page.panelState
  rw [h]
  exact if_neg (by decide)

/-- C9, what the code does: when the request of the icon-click flow fails (the `fetch` is
rejected, or the body does not parse), the error is logged and shown in an alert, and the
panel is left holding the loading view. -/
theorem sendToBackend_failure_leaves_loading (fmt : ℚ → String) (data : NewsData)
    (message : String) (status : Nat) (page : Page) :
    (sendToBackend fmt data (.rejected message) page).panelState = .loading ∧
    alertsOf (sendToBackend fmt data (.rejected message) page).log =
      alertsOf page.log ++ ["Error checking news authenticity: " ++ message] ∧
    (sendToBackend fmt data (.response status (.error message)) page).panelState = .loading ∧
    alertsOf (sendToBackend fmt data (.response status (.error message)) page).log =
      alertsOf page.log ++ ["Error checking news authenticity: " ++ message] := by
  have hp : (sendToBackend fmt data (.rejected message) page).panel = some loadingHtml := by
    unfold sendToBackend
    simp only [showDetectionResult_loading, logAndAlertError]
  have hl : (sendToBackend fmt data (.rejected message) page).log =
      page.log ++ (if page.panel.isNone then [Action.createPanel] else []) ++
        [.setPanelHtml loadingHtml, .fetch (pipelineRequest data),
         .consoleError "❌ Failed to send data:" message,
         .alert ("Error checking news authenticity: " ++ message)] := by
    unfold sendToBackend
    simp [showDetectionResult_loading, logAndAlertError, pipelineRequest]
  have hsame : sendToBackend fmt data (.response status (.error message)) page =
      sendToBackend fmt data (.rejected message) page := rfl
  have hstate : (sendToBackend fmt data (.rejected message) page).panelState = .loading := by
    unfold Page.panelState
    rw [hp]
    exact if_pos rfl
  have halerts : alertsOf (sendToBackend fmt data (.rejected message) page).log =
      alertsOf page.log ++ ["Error checking news authenticity: " ++ message] := by
    rw [hl]
    simp only [alertsOf_append]
    cases page.panel <;> simp [alertsOf]
  exact ⟨hstate, halerts, hsame ▸ hstate, hsame ▸ halerts⟩

/-- C10, what the code does: for the body `null` the read `result.trusted_news` throws a
`TypeError` before anything is rendered, and so does the conversion of a `trusted_news`
object that has an own `toString` property. In the selection flow on a fresh page the body
`null` leaves the new panel empty and ends in an alert. An empty record, a number, a string,
a boolean and an array all render, with the fallback value in every field. -/
theorem showDetectionResult_throws (fmt : ℚ → String) (page : Page) :
    resultHtml fmt (.object []) = .ok unknownResultHtml ∧
    (∀ n : JSNumber, resultHtml fmt (.number n) = .ok unknownResultHtml) ∧
    (∀ s : String, resultHtml fmt (.string s) = .ok unknownResultHtml) ∧
    (∀ b : Bool, resultHtml fmt (.boolean b) = .ok unknownResultHtml) ∧
    (∀ items : List JSValue, resultHtml fmt (.array items) = .ok unknownResultHtml) ∧
    (showDetectionResult fmt .null false page).2 =
      some { name := "TypeError"
             message := "Cannot read properties of null (reading \x27trusted_news\x27)" } ∧
    (showDetectionResult fmt
      (.object [("trusted_news", .object [("toString", .number (.finite 1))])]) false page).2 =
      some { name := "TypeError", message := "Cannot convert object to primitive value" } ∧
    (checkNewsAuthenticity fmt "Scientists discover water on Mars" (.response 200 (.ok .null))
      Page.initial).panel = some "" ∧
    alertsOf (checkNewsAuthenticity fmt "Scientists discover water on Mars"
      (.response 200 (.ok .null)) Page.initial).log =
      ["Error checking news authenticity: Cannot read properties of null (reading \x27trusted_news\x27)"] := by
  refine ⟨rfl, fun _ => rfl, fun _ => rfl, fun _ => rfl, fun _ => rfl, ?_, ?_, rfl, ?_⟩
  · unfold showDetectionResult
    cases page.panel <;> rfl
  · unfold showDetectionResult
    cases page.panel <;> rfl
  · have h : cannotReadError "null" "trusted_news" =
        { name := "TypeError"
          message := "Cannot read properties of null (reading \x27trusted_news\x27)" } := by
      decide
    show [_] = _
    rw [List.cons.injEq]
    refine ⟨?_, rfl⟩
    show "Error checking news authenticity: " ++
      (cannotReadError "null" "trusted_news").message = _
    rw [h]
    decide

end FakeNews
